import Mathlib

/-!
Verification of the JoggerloadBridges core (src/main.cpp): the closed-form
damped-oscillator response functions y, dy, ddy, the bounded Newton peak
finder, the jogger load factor, and the orchestration formula of main.
The C++ doubles are modelled as real numbers.
-/

noncomputable section

namespace JoggerloadBridges

/-- Source: `double power2(double x){return x*x;}` -/
def power2 (x : ℝ) : ℝ := x * x

/-- Source: `double power3(double x){return x*x*x;}` -/
def power3 (x : ℝ) : ℝ := x * x * x

/-- Source line 52: second derivative of the amplitude ratio. -/
def ddy (t a T : ℝ) : ℝ :=
  (power3 a * T * Real.cos (a * t) - power2 a * Real.sin (a * t)
    + a * Real.exp (-t / T) / T) / (power2 (a * T) + 1)

/-- Source line 59: first derivative of the amplitude ratio. -/
def dy (t a T : ℝ) : ℝ :=
  (power2 a * T * Real.sin (a * t) + a * Real.cos (a * t)
    - a * Real.exp (-t / T)) / (power2 (a * T) + 1)

/-- Source line 73: amplitude ratio as a function of time. -/
def y (t a T : ℝ) : ℝ :=
  (-a * T * Real.cos (a * t) + a * T * Real.exp (-t / T)
    + Real.sin (a * t)) / (power2 (a * T) + 1)

/-- Source lines 91-93: one Newton update of `newtonsMethod`,
`A = ddy(t,a,T); B = dy(t,a,T) - A*t; t = -B/A`. -/
def newtonUpdate (t a T : ℝ) : ℝ :=
  let A := ddy t a T
  let B := dy t a T - A * t;
  -B / A

/-- Source lines 90-101: one iteration of the loop body of `newtonsMethod`:
the Newton update followed by the two sequential clamps
`if(t>t_max) t=t_max; if(t<0) t=0.45*t_max;`. -/
def newtonStep (a T t_max t : ℝ) : ℝ :=
  let t1 := newtonUpdate t a T
  let t2 := if t1 > t_max then t_max else t1
  if t2 < 0 then 0.45 * t_max else t2

/-- Source lines 84-103: `newtonsMethod` starts at `t = t_max*0.75` with
`t_max = pi/a` and performs exactly 6 clamped Newton iterations. -/
def newtonsMethod (a T : ℝ) : ℝ :=
  let t_max := Real.pi / a
  (fun t => newtonStep a T t_max t)^[6] (t_max * 0.75)

/-- Source lines 119-128: `joggerLoadFactor`. -/
def joggerLoadFactor (f : ℝ) : ℝ :=
  if f ≤ 1.9 ∨ f ≥ 3.5 then 0
  else if f < 2.2 then (f - 1.9) * (2.2 - 1.9)
  else if f ≤ 2.7 then 1
  else (-(f - 3.5)) * (3.5 - 2.7)

/-- Source lines 158-180: the maximal-acceleration-per-jogger value printed by
`main`, as a function of the five user-supplied scalars:
`a = pi*v/L`, `T = 1/(2*pi*f*z)`, `t = newtonsMethod(a,T)`,
`y_max_ratio = y(t,a,T)`, result `y_max_ratio*1250*joggerLoadFactor(f)/(2*m*z)`. -/
def maxAccelerationPerJogger (L v f z m : ℝ) : ℝ :=
  let a := Real.pi * v / L
  let T := 1 / (2 * Real.pi * f * z)
  let t := newtonsMethod a T
  let y_max_ratio := y t a T
  y_max_ratio * 1250 * joggerLoadFactor f / (2 * m * z)

/-- The denominators of the division operations occurring in the source
expression of `y` (line 73): `exp(-t/T)` divides by `T`, and the whole
numerator is divided by `power2(a*T) + 1`. -/
def yDivisors (t a T : ℝ) : List ℝ := [T, power2 (a * T) + 1]

/-- The denominators of the division operations occurring in the source
expression of `dy` (line 59): `exp(-t/T)` divides by `T`, and the whole
numerator is divided by `power2(a*T) + 1`. -/
def dyDivisors (t a T : ℝ) : List ℝ := [T, power2 (a * T) + 1]

/-- The denominators of the division operations occurring in the source
expression of `ddy` (line 52): `exp(-t/T)` divides by `T`, the term
`a*exp(-t/T)/T` divides by `T` again, and the whole numerator is divided by
`power2(a*T) + 1`. -/
def ddyDivisors (t a T : ℝ) : List ℝ := [T, T, power2 (a * T) + 1]

/-- The spec's closed form for y: `[-aT*cos(at) + aT*e^(-t/T) + sin(at)] / ((aT)^2+1)`. -/
def y_specForm (t a T : ℝ) : ℝ :=
  (-(a * T) * Real.cos (a * t) + a * T * Real.exp (-t / T)
    + Real.sin (a * t)) / ((a * T) ^ 2 + 1)

/-- The spec's closed form for dy: `[a^2*T*sin(at) + a*cos(at) - a*e^(-t/T)] / ((aT)^2+1)`. -/
def dy_specForm (t a T : ℝ) : ℝ :=
  (a ^ 2 * T * Real.sin (a * t) + a * Real.cos (a * t)
    - a * Real.exp (-t / T)) / ((a * T) ^ 2 + 1)

/-- The spec's closed form for ddy: `[a^3*T*cos(at) - a^2*sin(at) + (a/T)*e^(-t/T)] / ((aT)^2+1)`. -/
def ddy_specForm (t a T : ℝ) : ℝ :=
  (a ^ 3 * T * Real.cos (a * t) - a ^ 2 * Real.sin (a * t)
    + (a / T) * Real.exp (-t / T)) / ((a * T) ^ 2 + 1)

/-! ## Helper lemmas -/

theorem joggerLoadFactor_nonneg (f : ℝ) : 0 ≤ joggerLoadFactor f := by
  unfold joggerLoadFactor
  split_ifs with h1 h2 h3
  · norm_num
  · push_neg at h1
    nlinarith [h1.1, h1.2]
  · norm_num
  · push_neg at h1 h3
    nlinarith [h1.2, h3]

theorem joggerLoadFactor_le_one (f : ℝ) : joggerLoadFactor f ≤ 1 := by
  unfold joggerLoadFactor
  split_ifs with h1 h2 h3
  · norm_num
  · push_neg at h1
    nlinarith [h1.1, h2]
  · norm_num
  · push_neg at h1 h3
    nlinarith [h1.2, h3]

theorem jlf_zero_low {f : ℝ} (h : f ≤ 1.9) : joggerLoadFactor f = 0 := by
  unfold joggerLoadFactor
  rw [if_pos (Or.inl h)]

theorem jlf_zero_high {f : ℝ} (h : 3.5 ≤ f) : joggerLoadFactor f = 0 := by
  unfold joggerLoadFactor
  rw [if_pos (Or.inr h)]

theorem jlf_ramp_up {f : ℝ} (h1 : 1.9 < f) (h2 : f < 2.2) :
    joggerLoadFactor f = (f - 1.9) * (2.2 - 1.9) := by
  unfold joggerLoadFactor
  rw [if_neg (by push_neg; constructor <;> linarith), if_pos h2]

theorem jlf_plateau {f : ℝ} (h1 : 2.2 ≤ f) (h2 : f ≤ 2.7) :
    joggerLoadFactor f = 1 := by
  unfold joggerLoadFactor
  rw [if_neg (by push_neg; constructor <;> linarith), if_neg (by linarith),
    if_pos h2]

theorem jlf_ramp_down {f : ℝ} (h1 : 2.7 < f) (h2 : f < 3.5) :
    joggerLoadFactor f = (-(f - 3.5)) * (3.5 - 2.7) := by
  unfold joggerLoadFactor
  rw [if_neg (by push_neg; constructor <;> linarith), if_neg (by linarith),
    if_neg (by linarith)]

theorem newtonStep_mem (a T t_max t : ℝ) (h : 0 ≤ t_max) :
    0 ≤ newtonStep a T t_max t ∧ newtonStep a T t_max t ≤ t_max := by
  unfold newtonStep
  dsimp only
  split_ifs <;> constructor <;> linarith

theorem y_hasDerivAt (t a T : ℝ) (hT : T ≠ 0) :
    HasDerivAt (fun s => y s a T) (dy t a T) t := by
  have hat : HasDerivAt (fun s : ℝ => a * s) a t := by
    simpa using (hasDerivAt_id t).const_mul a
  have hlin : HasDerivAt (fun s : ℝ => -s / T) (-1 / T) t := by
    simpa using (hasDerivAt_id t).neg.div_const T
  have hnum : HasDerivAt
      (fun s : ℝ => -a * T * Real.cos (a * s) + a * T * Real.exp (-s / T)
        + Real.sin (a * s))
      (-a * T * (-Real.sin (a * t) * a) + a * T * (Real.exp (-t / T) * (-1 / T))
        + Real.cos (a * t) * a) t :=
    ((hat.cos.const_mul (-a * T)).add ((hlin.exp).const_mul (a * T))).add hat.sin
  have h := hnum.div_const (power2 (a * T) + 1)
  have hfun : (fun s => y s a T) =
      (fun s : ℝ => (-a * T * Real.cos (a * s) + a * T * Real.exp (-s / T)
        + Real.sin (a * s)) / (power2 (a * T) + 1)) := by
    funext s
    unfold y
    ring
  have hval : dy t a T =
      (-a * T * (-Real.sin (a * t) * a) + a * T * (Real.exp (-t / T) * (-1 / T))
        + Real.cos (a * t) * a) / (power2 (a * T) + 1) := by
    unfold dy power2
    congr 1
    field_simp
    ring
  rw [hfun, hval]
  exact h

theorem dy_hasDerivAt (t a T : ℝ) (hT : T ≠ 0) :
    HasDerivAt (fun s => dy s a T) (ddy t a T) t := by
  have hat : HasDerivAt (fun s : ℝ => a * s) a t := by
    simpa using (hasDerivAt_id t).const_mul a
  have hlin : HasDerivAt (fun s : ℝ => -s / T) (-1 / T) t := by
    simpa using (hasDerivAt_id t).neg.div_const T
  have hnum : HasDerivAt
      (fun s : ℝ => power2 a * T * Real.sin (a * s) + a * Real.cos (a * s)
        - a * Real.exp (-s / T))
      (power2 a * T * (Real.cos (a * t) * a) + a * (-Real.sin (a * t) * a)
        - a * (Real.exp (-t / T) * (-1 / T))) t :=
    ((hat.sin.const_mul (power2 a * T)).add (hat.cos.const_mul a)).sub
      ((hlin.exp).const_mul a)
  have h := hnum.div_const (power2 (a * T) + 1)
  have hfun : (fun s => dy s a T) =
      (fun s : ℝ => (power2 a * T * Real.sin (a * s) + a * Real.cos (a * s)
        - a * Real.exp (-s / T)) / (power2 (a * T) + 1)) := by
    funext s
    unfold dy
    ring
  have hval : ddy t a T =
      (power2 a * T * (Real.cos (a * t) * a) + a * (-Real.sin (a * t) * a)
        - a * (Real.exp (-t / T) * (-1 / T))) / (power2 (a * T) + 1) := by
    unfold ddy power2 power3
    congr 1
    ring
  rw [hfun, hval]
  exact h

/-! ## Claims -/

/-- Claim C4: `joggerLoadFactor` realizes the piecewise definition of the spec:
0 outside (1.9, 3.5), the non-normalized ramp `(f-1.9)*(2.2-1.9)` on
(1.9, 2.2), 1 on [2.2, 2.7] and `-(f-3.5)*(3.5-2.7)` on (2.7, 3.5); in
particular it is 0 at 1.9 and at 3.5 and 1 on the plateau. -/
theorem joggerLoadFactor_piecewise (f : ℝ) :
    ((f ≤ 1.9 ∨ f ≥ 3.5) → joggerLoadFactor f = 0) ∧
    (1.9 < f → f < 2.2 → joggerLoadFactor f = (f - 1.9) * (2.2 - 1.9)) ∧
    (2.2 ≤ f → f ≤ 2.7 → joggerLoadFactor f = 1) ∧
    (2.7 < f → f < 3.5 → joggerLoadFactor f = -(f - 3.5) * (3.5 - 2.7)) ∧
    joggerLoadFactor 1.9 = 0 ∧ joggerLoadFactor 3.5 = 0 := by
  refine ⟨?_, ?_, ?_, ?_, ?_, ?_⟩
  · intro h
    unfold joggerLoadFactor
    rw [if_pos h]
  · intro h1 h2
    unfold joggerLoadFactor
    rw [if_neg (by push_neg; constructor <;> linarith), if_pos h2]
  · intro h1 h2
    unfold joggerLoadFactor
    rw [if_neg (by push_neg; constructor <;> linarith),
      if_neg (by linarith), if_pos h2]
  · intro h1 h2
    unfold joggerLoadFactor
    rw [if_neg (by push_neg; constructor <;> linarith),
      if_neg (by linarith), if_neg (by linarith)]
  · unfold joggerLoadFactor
    rw [if_pos (Or.inl le_rfl)]
  · unfold joggerLoadFactor
    rw [if_pos (Or.inr le_rfl)]

/-- Witness for C4 at f = 2.5: the plateau clause gives the value 1. -/
theorem joggerLoadFactor_piecewise_witness :
    ((2.2 : ℝ) ≤ 2.5 ∧ (2.5 : ℝ) ≤ 2.7) ∧ joggerLoadFactor 2.5 = 1 :=
  ⟨by norm_num,
    (joggerLoadFactor_piecewise 2.5).2.2.1 (by norm_num) (by norm_num)⟩

/-- Claim C8: the returned load factor always lies in the closed interval [0,1]. -/
theorem joggerLoadFactor_mem_Icc (f : ℝ) :
    joggerLoadFactor f ∈ Set.Icc (0 : ℝ) 1 :=
  ⟨joggerLoadFactor_nonneg f, joggerLoadFactor_le_one f⟩

/-- Claim C7: the response ratio at time zero is exactly zero for a > 0, T > 0. -/
theorem y_zero (a T : ℝ) (ha : 0 < a) (hT : 0 < T) : y 0 a T = 0 := by
  unfold y
  rw [mul_zero, Real.cos_zero, Real.sin_zero, neg_zero, zero_div, Real.exp_zero]
  ring

/-- Witness for C7 at a = 1, T = 1. -/
theorem y_zero_witness : ((0 : ℝ) < 1 ∧ (0 : ℝ) < 1) ∧ y 0 1 1 = 0 :=
  ⟨by norm_num, y_zero 1 1 (by norm_num) (by norm_num)⟩

/-- Claim C1: for every a > 0 and T > 0, `newtonsMethod a T` (start at
`0.75*(pi/a)`, 6 clamped Newton iterations) returns a value in the closed
interval [0, pi/a]. -/
theorem newtonsMethod_mem_Icc (a T : ℝ) (ha : 0 < a) (hT : 0 < T) :
    newtonsMethod a T ∈ Set.Icc 0 (Real.pi / a) := by
  have hmax : 0 ≤ Real.pi / a := div_nonneg Real.pi_pos.le ha.le
  have h6 : newtonsMethod a T =
      newtonStep a T (Real.pi / a)
        ((fun t => newtonStep a T (Real.pi / a) t)^[5] (Real.pi / a * 0.75)) := by
    unfold newtonsMethod
    dsimp only
    rw [show (6 : ℕ) = 5 + 1 by norm_num, Function.iterate_succ_apply']
  rw [Set.mem_Icc, h6]
  exact newtonStep_mem a T _ _ hmax

/-- Witness for C1 at a = 1, T = 1. -/
theorem newtonsMethod_mem_Icc_witness :
    ((0 : ℝ) < 1 ∧ (0 : ℝ) < 1) ∧ newtonsMethod 1 1 ∈ Set.Icc 0 (Real.pi / 1) :=
  ⟨by norm_num, newtonsMethod_mem_Icc 1 1 (by norm_num) (by norm_num)⟩

/-- Claim C2: for t ≥ 0, a > 0, T > 0 the three response functions of the code
equal the spec's closed forms. -/
theorem response_eq_specForms (t a T : ℝ) (ht : 0 ≤ t) (ha : 0 < a) (hT : 0 < T) :
    y t a T = y_specForm t a T ∧ dy t a T = dy_specForm t a T ∧
      ddy t a T = ddy_specForm t a T := by
  refine ⟨?_, ?_, ?_⟩
  · simp only [y, y_specForm, power2]
    ring
  · simp only [dy, dy_specForm, power2]
    ring
  · simp only [ddy, ddy_specForm, power2, power3]
    ring

/-- Witness for C2 at t = 1, a = 1, T = 1. -/
theorem response_eq_specForms_witness :
    ((0 : ℝ) ≤ 1 ∧ (0 : ℝ) < 1 ∧ (0 : ℝ) < 1) ∧
      (y 1 1 1 = y_specForm 1 1 1 ∧ dy 1 1 1 = dy_specForm 1 1 1 ∧
        ddy 1 1 1 = ddy_specForm 1 1 1) :=
  ⟨by norm_num,
    response_eq_specForms 1 1 1 (by norm_num) (by norm_num) (by norm_num)⟩

/-- Claim C6: whenever ddy(t,a,T) is nonzero, the update computed as
t_new = -B/A with A = ddy(t,a,T) and B = dy(t,a,T) - A*t equals the standard
Newton update t - dy(t,a,T)/ddy(t,a,T). -/
theorem newtonUpdate_eq_newton (t a T : ℝ) (h : ddy t a T ≠ 0) :
    newtonUpdate t a T = t - dy t a T / ddy t a T := by
  unfold newtonUpdate
  dsimp only
  field_simp
  ring

/-- Witness for C6 at t = 0, a = 1, T = 1, where ddy evaluates to 1. -/
theorem newtonUpdate_eq_newton_witness :
    ddy 0 1 1 ≠ 0 ∧ newtonUpdate 0 1 1 = 0 - dy 0 1 1 / ddy 0 1 1 := by
  have h : ddy 0 1 1 = 1 := by
    unfold ddy power2 power3
    norm_num
  exact ⟨by rw [h]; norm_num,
    newtonUpdate_eq_newton 0 1 1 (by rw [h]; norm_num)⟩

/-- Claim C5: the maximal acceleration per jogger computed by main equals
y(t*,a,T) * 1250 * joggerLoadFactor(f) / (2*m*z), where a = pi*v/L,
T = 1/(2*pi*f*z) and t* = newtonsMethod(a,T). -/
theorem maxAcceleration_formula (L v f z m : ℝ) (hL : 0 < L) (hv : 0 < v)
    (hf : 0 < f) (hz : 0 < z) (hm : 0 < m) :
    maxAccelerationPerJogger L v f z m =
      y (newtonsMethod (Real.pi * v / L) (1 / (2 * Real.pi * f * z)))
          (Real.pi * v / L) (1 / (2 * Real.pi * f * z))
        * 1250 * joggerLoadFactor f / (2 * m * z) := rfl

/-- Witness for C5 at the spec's reference scenario
L = 10, v = 3, f = 2.8, z = 0.006 with m = 500. -/
theorem maxAcceleration_formula_witness :
    ((0 : ℝ) < 10 ∧ (0 : ℝ) < 3 ∧ (0 : ℝ) < 2.8 ∧ (0 : ℝ) < 0.006 ∧
        (0 : ℝ) < 500) ∧
      maxAccelerationPerJogger 10 3 2.8 0.006 500 =
        y (newtonsMethod (Real.pi * 3 / 10) (1 / (2 * Real.pi * 2.8 * 0.006)))
            (Real.pi * 3 / 10) (1 / (2 * Real.pi * 2.8 * 0.006))
          * 1250 * joggerLoadFactor 2.8 / (2 * 500 * 0.006) :=
  ⟨by norm_num,
    maxAcceleration_formula 10 3 2.8 0.006 500 (by norm_num) (by norm_num)
      (by norm_num) (by norm_num) (by norm_num)⟩

/-- Claim C3: for a > 0 and T > 0, dy is the derivative of y with respect to
t, and ddy is the derivative of dy with respect to t. -/
theorem deriv_consistency (a T : ℝ) (ha : 0 < a) (hT : 0 < T) (t : ℝ) :
    HasDerivAt (fun s => y s a T) (dy t a T) t ∧
      HasDerivAt (fun s => dy s a T) (ddy t a T) t :=
  ⟨y_hasDerivAt t a T hT.ne', dy_hasDerivAt t a T hT.ne'⟩

/-- Witness for C3 at a = 1, T = 1, t = 0. -/
theorem deriv_consistency_witness :
    ((0 : ℝ) < 1 ∧ (0 : ℝ) < 1) ∧
      (HasDerivAt (fun s => y s 1 1) (dy 0 1 1) 0 ∧
        HasDerivAt (fun s => dy s 1 1) (ddy 0 1 1) 0) :=
  ⟨by norm_num, deriv_consistency 1 1 (by norm_num) (by norm_num) 0⟩

/-- Claim C10: the load factor is monotonically non-decreasing on the
half-line f ≤ 2.7 and monotonically non-increasing on the half-line
f ≥ 2.2. -/
theorem joggerLoadFactor_monotone_pieces :
    (∀ f1 f2 : ℝ, f1 ≤ f2 → f2 ≤ 2.7 →
      joggerLoadFactor f1 ≤ joggerLoadFactor f2) ∧
    (∀ f1 f2 : ℝ, 2.2 ≤ f1 → f1 ≤ f2 →
      joggerLoadFactor f2 ≤ joggerLoadFactor f1) := by
  constructor
  · intro f1 f2 h12 h27
    rcases le_or_lt f1 1.9 with c1 | c1
    · rw [jlf_zero_low c1]
      exact joggerLoadFactor_nonneg f2
    rcases lt_or_le f1 2.2 with c2 | c2
    · rw [jlf_ramp_up c1 c2]
      rcases lt_or_le f2 2.2 with c3 | c3
      · rw [jlf_ramp_up (lt_of_lt_of_le c1 h12) c3]
        nlinarith
      · rw [jlf_plateau c3 h27]
        nlinarith
    · rw [jlf_plateau c2 (le_trans h12 h27),
        jlf_plateau (le_trans c2 h12) h27]
  · intro f1 f2 h21 h12
    rcases le_or_lt f1 2.7 with c1 | c1
    · rw [jlf_plateau h21 c1]
      exact joggerLoadFactor_le_one f2
    rcases lt_or_le f1 3.5 with c2 | c2
    · rw [jlf_ramp_down c1 c2]
      rcases lt_or_le f2 3.5 with c3 | c3
      · rw [jlf_ramp_down (lt_of_lt_of_le c1 h12) c3]
        nlinarith
      · rw [jlf_zero_high c3]
        nlinarith
    · rw [jlf_zero_high c2, jlf_zero_high (le_trans c2 h12)]

/-- Witness for C10: non-decreasing across 2.0 ≤ 2.1 ≤ 2.7 and
non-increasing across 2.2 ≤ 2.9 ≤ 3.0. -/
theorem joggerLoadFactor_monotone_pieces_witness :
    (((2.0 : ℝ) ≤ 2.1 ∧ (2.1 : ℝ) ≤ 2.7) ∧
      joggerLoadFactor 2.0 ≤ joggerLoadFactor 2.1) ∧
    (((2.2 : ℝ) ≤ 2.9 ∧ (2.9 : ℝ) ≤ 3.0) ∧
      joggerLoadFactor 3.0 ≤ joggerLoadFactor 2.9) :=
  ⟨⟨by norm_num,
      joggerLoadFactor_monotone_pieces.1 2.0 2.1 (by norm_num) (by norm_num)⟩,
    ⟨by norm_num,
      joggerLoadFactor_monotone_pieces.2 2.9 3.0 (by norm_num) (by norm_num)⟩⟩

/-- Counterexample to claim C9 as stated: the source expression of y itself
contains the division -t/T inside exp, whose denominator T is zero at the
concrete input t = 0, a = 0, T = 0, so it is not the case that every division
occurring in y has a nonzero denominator over all real inputs. -/
theorem yDivisors_zero_at_T_zero :
    ¬ (∀ t a T : ℝ, ∀ d ∈ yDivisors t a T, d ≠ 0) := by
  intro h
  exact h 0 0 0 0 (by simp [yDivisors]) rfl

/-- Claim C9 (amended): the common denominator (aT)^2 + 1 is always at least
1, hence nonzero; however y and dy, like ddy, contain e^(-t/T) (and ddy a
further direct division by T), so every division occurring in y, dy and ddy
has a nonzero denominator precisely under the hypothesis T ≠ 0. -/
theorem divisors_nonzero (t a T : ℝ) (hT : T ≠ 0) :
    1 ≤ power2 (a * T) + 1 ∧
      (∀ d ∈ yDivisors t a T, d ≠ 0) ∧ (∀ d ∈ dyDivisors t a T, d ≠ 0) ∧
        (∀ d ∈ ddyDivisors t a T, d ≠ 0) := by
  have h1 : (1 : ℝ) ≤ power2 (a * T) + 1 := by
    unfold power2
    nlinarith [mul_self_nonneg (a * T)]
  have h2 : power2 (a * T) + 1 ≠ 0 := by
    intro h0
    rw [h0] at h1
    exact absurd h1 (by norm_num)
  refine ⟨h1, ?_, ?_, ?_⟩ <;>
    simp only [yDivisors, dyDivisors, ddyDivisors, List.forall_mem_cons,
      List.forall_mem_singleton] <;>
    exact ⟨hT, by simp [hT, h2]⟩

/-- Witness for the amended C9 at t = 0, a = 1, T = 1. -/
theorem divisors_nonzero_witness :
    (1 : ℝ) ≠ 0 ∧
      (1 ≤ power2 ((1 : ℝ) * 1) + 1 ∧
        (∀ d ∈ yDivisors 0 1 1, d ≠ 0) ∧ (∀ d ∈ dyDivisors 0 1 1, d ≠ 0) ∧
          (∀ d ∈ ddyDivisors 0 1 1, d ≠ 0)) :=
  ⟨by norm_num, divisors_nonzero 0 1 1 (by norm_num)⟩

end JoggerloadBridges
